import Mathlib

/-!
Shallow embedding of `src/src/components/NewFeaturePopup/index.tsx`:
a React popup component whose mount-time `useEffect` decides, from two
browser `localStorage` entries, whether to schedule showing the popup,
and whose click handlers (`handleClose`, `handleDismiss`,
`handleNavigate`) update visibility state and persisted storage.

Browser local storage is modelled as an association list from string
keys to string values; `localStorage.getItem` returns `Option String`
(`none` for a missing key) and `localStorage.setItem` replaces any
existing binding.  JavaScript string truthiness (`if (dismissed)`,
`if (!lastShown)`) treats `null` and the empty string as falsy and any
other string as truthy.  `parseInt` is modelled faithfully
(whitespace skip, optional sign, optional `0x` prefix, longest digit
prefix, `NaN` as `none`), and the floating-point day arithmetic
`(now - parseInt(lastShown)) / (1000*60*60*24)` is modelled exactly
over `ℚ` (the timestamps involved are far below 2^53, where IEEE
doubles represent integers exactly and the single division cannot
cross the day-count comparison thresholds used here).
-/

namespace NewFeaturePopup

/-- Browser local storage: an association list of key/value strings.
`localStorage` keys are unique; `setItem` below preserves that. -/
def Storage : Type := List (String × String)

instance : DecidableEq Storage := by
  unfold Storage
  infer_instance

instance : Membership (String × String) Storage := by
  unfold Storage
  infer_instance

/-- `localStorage.getItem(k)`: the value stored under `k`, or `none`
(JavaScript `null`) when the key is absent. -/
def getItem (k : String) (s : Storage) : Option String :=
  (s.find? (fun p => p.1 == k)).map (fun p => p.2)

/-- `localStorage.setItem(k, v)`: bind `k` to `v`, replacing any
previous binding for `k`. -/
def setItem (k v : String) (s : Storage) : Storage :=
  (k, v) :: s.filter (fun p => p.1 != k)

/-- JavaScript truthiness of a `string | null` value: `null` and the
empty string are falsy, every other string is truthy. -/
def jsTruthy : Option String → Bool
  | none => false
  | some s => s != ""

/-- The storage key `` `popup_${featureId}_lastShown` ``. -/
def lastShownKey (featureId : String) : String :=
  "popup_" ++ featureId ++ "_lastShown"

/-- The storage key `` `popup_${featureId}_dismissed` ``. -/
def dismissedKey (featureId : String) : String :=
  "popup_" ++ featureId ++ "_dismissed"

/-- JavaScript whitespace accepted (and skipped) by `parseInt`. -/
def isJsSpace (c : Char) : Bool :=
  c == ' ' || c == '\t' || c == '\n' || c == '\r' ||
    c == '\x0b' || c == '\x0c'

/-- Is `c` a digit of the given radix (10 or 16)? -/
def isDigitRadix (radix : Nat) (c : Char) : Bool :=
  if radix == 16 then
    ('0' ≤ c && c ≤ '9') || ('a' ≤ c && c ≤ 'f') || ('A' ≤ c && c ≤ 'F')
  else
    '0' ≤ c && c ≤ '9'

/-- Numeric value of a (decimal or hexadecimal) digit character. -/
def digitVal (c : Char) : Nat :=
  if 'a' ≤ c && c ≤ 'f' then c.toNat - 'a'.toNat + 10
  else if 'A' ≤ c && c ≤ 'F' then c.toNat - 'A'.toNat + 10
  else c.toNat - '0'.toNat

/-- JavaScript `parseInt(s)` with no radix argument: skip leading
whitespace, read an optional sign, detect an optional `0x`/`0X` prefix
(hexadecimal, otherwise decimal), then interpret the longest prefix of
valid digits; `NaN` (modelled as `none`) when that prefix is empty. -/
def parseIntJS (s : String) : Option Int :=
  let cs := s.data.dropWhile isJsSpace
  let (sign, cs₁) : Int × List Char :=
    match cs with
    | '-' :: rest => (-1, rest)
    | '+' :: rest => (1, rest)
    | _ => (1, cs)
  let (radix, cs₂) : Nat × List Char :=
    match cs₁ with
    | '0' :: 'x' :: rest => (16, rest)
    | '0' :: 'X' :: rest => (16, rest)
    | _ => (10, cs₁)
  let digits := cs₂.takeWhile (isDigitRadix radix)
  if digits.isEmpty then none
  else some (sign * (digits.foldl (fun a c => a * radix + digitVal c) 0 : Nat))

/-- Milliseconds per day, `1000 * 60 * 60 * 24` from the source. -/
def msPerDay : ℚ := 1000 * 60 * 60 * 24

/-- Result of running the mount-time `useEffect` body once:
`schedule` is `some 2000` when a deferred show was scheduled with the
fixed 2000 ms delay (`setTimeout(..., 2000)`), `storage` is local
storage after the effect ran, and `cleanup` records whether the effect
returned a cleanup function (it never does: the `useEffect` callback
returns `undefined` on every path). -/
structure EffectResult where
  schedule : Option Nat
  storage : Storage
  cleanup : Bool
  deriving DecidableEq

/-- The mount-time decision of `NewFeaturePopup`'s `useEffect`, with
the clock reading `new Date().getTime()` passed in as `now`:
read `lastShown` and `dismissed`; if `dismissed` is truthy, do
nothing; otherwise, if `lastShown` is falsy (absent or empty),
schedule the show after 2000 ms and immediately persist
`lastShown = now`; otherwise compute
`(now - parseInt(lastShown)) / (1000*60*60*24)` and schedule the show
after 2000 ms exactly when that is `< showDays` (a comparison with
`NaN` is false, so an unparseable `lastShown` falls into the
do-nothing branch). -/
def mountEffect (featureId : String) (showDays : ℚ) (now : Int)
    (s : Storage) : EffectResult :=
  let lastShown := getItem (lastShownKey featureId) s
  let dismissed := getItem (dismissedKey featureId) s
  if jsTruthy dismissed then
    ⟨none, s, false⟩
  else if !(jsTruthy lastShown) then
    ⟨some 2000, setItem (lastShownKey featureId) (toString now) s, false⟩
  else
    match parseIntJS ((lastShown.getD "")) with
    | none => ⟨none, s, false⟩
    | some t =>
        let daysSinceLastShown : ℚ := ((now - t : Int) : ℚ) / msPerDay
        if daysSinceLastShown < showDays then ⟨some 2000, s, false⟩
        else ⟨none, s, false⟩

/-- After unmount, the deferred show callback scheduled by the effect
is still pending unless the effect returned a cleanup function that
clears it (React runs the returned cleanup on unmount; `clearTimeout`
is never called in the source). -/
def pendingAfterUnmount (r : EffectResult) : Option Nat :=
  if r.cleanup then none else r.schedule

/-- Result of running one of the click handlers: local storage after
the handler, the value passed to `setIsAnimating`, the delay of the
scheduled `setIsVisible(false)` call (`setTimeout(..., 400)`), and the
route pushed to the router history, if any. -/
structure HandlerResult where
  storage : Storage
  animating : Bool
  hideDelay : Option Nat
  navTo : Option String
  deriving DecidableEq

/-- `handleClose`: `setIsAnimating(false)` then
`setTimeout(() => setIsVisible(false), 400)`; no storage access, no
navigation. -/
def handleClose (s : Storage) : HandlerResult :=
  ⟨s, false, some 400, none⟩

/-- `handleDismiss`: `localStorage.setItem(`popup_${featureId}_dismissed`, 'true')`,
then `setIsAnimating(false)` and `setTimeout(() => setIsVisible(false), 400)`. -/
def handleDismiss (featureId : String) (s : Storage) : HandlerResult :=
  ⟨setItem (dismissedKey featureId) "true" s, false, some 400, none⟩

/-- `handleNavigate`: `history.push(linkUrl)`, then `setIsAnimating(false)`
and `setTimeout(() => setIsVisible(false), 400)`; no storage access. -/
def handleNavigate (linkUrl : String) (s : Storage) : HandlerResult :=
  ⟨s, false, some 400, some linkUrl⟩

/-- Browser storage device that may be unavailable: when local storage
is disabled, every `localStorage` member access raises (modelled as
`Except.error "SecurityError"`). -/
structure JsStorage where
  avail : Bool
  items : Storage
  deriving DecidableEq

/-- `localStorage.getItem` on a possibly-unavailable device. -/
def getItemThrow (st : JsStorage) (k : String) :
    Except String (Option String) :=
  if st.avail then .ok (getItem k st.items) else .error "SecurityError"

/-- `localStorage.setItem` on a possibly-unavailable device. -/
def setItemThrow (st : JsStorage) (k v : String) :
    Except String JsStorage :=
  if st.avail then .ok ⟨st.avail, setItem k v st.items⟩
  else .error "SecurityError"

/-- The same mount-time `useEffect` body, run against a
possibly-unavailable storage device.  The source wraps none of its
`localStorage` calls in `try`/`catch`, so every storage exception
propagates out of the effect uncaught — this definition sequences the
accesses with `Except` bind and has no recovery branch, mirroring
that. -/
def mountEffectThrow (featureId : String) (showDays : ℚ) (now : Int)
    (st : JsStorage) : Except String EffectResult := do
  let lastShown ← getItemThrow st (lastShownKey featureId)
  let dismissed ← getItemThrow st (dismissedKey featureId)
  if jsTruthy dismissed then
    return ⟨none, st.items, false⟩
  else if !(jsTruthy lastShown) then
    let st' ← setItemThrow st (lastShownKey featureId) (toString now)
    return ⟨some 2000, st'.items, false⟩
  else
    match parseIntJS (lastShown.getD "") with
    | none => return ⟨none, st.items, false⟩
    | some t =>
        if (((now - t : Int) : ℚ) / msPerDay) < showDays then
          return ⟨some 2000, st.items, false⟩
        else
          return ⟨none, st.items, false⟩

/-! Storage lemmas. -/

lemma getItem_setItem_self (k v : String) (s : Storage) :
    getItem k (setItem k v s) = some v := by
  simp [getItem, setItem]

lemma find?_filter_of_ne (k k' : String) (h : k' ≠ k)
    (s : List (String × String)) :
    (s.filter (fun p => p.1 != k)).find? (fun p => p.1 == k')
      = s.find? (fun p => p.1 == k') := by
  induction s with
  | nil => rfl
  | cons hd tl ih =>
      by_cases hk : hd.1 = k'
      · have hne : (hd.1 != k) = true := by
          simp [hk, h]
        simp [List.filter_cons, hne, List.find?_cons, hk, ih, h]
      · by_cases hk2 : hd.1 = k
        · simp [List.filter_cons, hk2, List.find?_cons, hk, ih, Ne.symm h]
        · simp [List.filter_cons, hk2, List.find?_cons, hk, ih]

lemma getItem_setItem_of_ne (k k' v : String) (h : k' ≠ k) (s : Storage) :
    getItem k' (setItem k v s) = getItem k' s := by
  unfold getItem setItem
  rw [List.find?_cons_of_neg, find?_filter_of_ne k k' h s]
  simp [Ne.symm h]

lemma setItem_idem (k v : String) (s : Storage) :
    setItem k v (setItem k v s) = setItem k v s := by
  unfold setItem
  rw [List.filter_cons_of_neg (by simp)]
  congr 1
  induction s with
  | nil => rfl
  | cons hd tl ih =>
      by_cases hk : hd.1 = k
      · simp [List.filter_cons, hk, ih]
      · simp [List.filter_cons, hk, ih]

lemma keys_ne (f : String) : lastShownKey f ≠ dismissedKey f := by
  intro h
  have h2 := congrArg String.data h
  simp [lastShownKey, dismissedKey, String.data_append] at h2

/-! Branch lemmas for the mount-time effect. -/

lemma mountEffect_dismissed (f : String) (d : ℚ) (now : Int) (s : Storage)
    (hd : jsTruthy (getItem (dismissedKey f) s) = true) :
    mountEffect f d now s = ⟨none, s, false⟩ := by
  unfold mountEffect
  simp [hd]

lemma mountEffect_neverShown (f : String) (d : ℚ) (now : Int) (s : Storage)
    (hd : jsTruthy (getItem (dismissedKey f) s) = false)
    (hl : jsTruthy (getItem (lastShownKey f) s) = false) :
    mountEffect f d now s
      = ⟨some 2000, setItem (lastShownKey f) (toString now) s, false⟩ := by
  unfold mountEffect
  simp [hd, hl]

lemma mountEffect_parsed (f : String) (d : ℚ) (now : Int) (s : Storage)
    (str : String) (t : Int)
    (hd : jsTruthy (getItem (dismissedKey f) s) = false)
    (hl : getItem (lastShownKey f) s = some str) (hne : str ≠ "")
    (hp : parseIntJS str = some t) :
    mountEffect f d now s =
      if ((now - t : Int) : ℚ) / msPerDay < d then ⟨some 2000, s, false⟩
      else ⟨none, s, false⟩ := by
  have htr : jsTruthy (some str) = true := by
    simp [jsTruthy, hne]
  unfold mountEffect
  simp only [hl, hd, htr, Option.getD_some, hp, Bool.false_eq_true, if_false,
    Bool.not_true, Bool.not_eq_true]

lemma mountEffect_nan (f : String) (d : ℚ) (now : Int) (s : Storage)
    (str : String)
    (hd : jsTruthy (getItem (dismissedKey f) s) = false)
    (hl : getItem (lastShownKey f) s = some str) (hne : str ≠ "")
    (hp : parseIntJS str = none) :
    mountEffect f d now s = ⟨none, s, false⟩ := by
  have htr : jsTruthy (some str) = true := by
    simp [jsTruthy, hne]
  unfold mountEffect
  simp only [hl, hd, htr, Option.getD_some, hp, Bool.false_eq_true, if_false,
    Bool.not_true, Bool.not_eq_true]

/-! Claim theorems. -/

/-- C1: if the persisted dismissed flag for `featureId` holds the
`"true"` sentinel, the mount-time decision renders nothing — it
schedules no show and leaves storage untouched — regardless of
`lastShownAt`, `showDays`, or the current time. -/
theorem C1_dismissed_never_shows (f : String) (d : ℚ) (now : Int)
    (s : Storage) (hd : getItem (dismissedKey f) s = some "true") :
    mountEffect f d now s = ⟨none, s, false⟩ :=
  mountEffect_dismissed f d now s (by rw [hd]; rfl)

/-- Witness for C1 at a concrete store holding both a dismissed flag
and a stale `lastShown` timestamp. -/
theorem C1_witness :
    mountEffect "x" 7 0
        [("popup_x_dismissed", "true"), ("popup_x_lastShown", "0")]
      = ⟨none, [("popup_x_dismissed", "true"), ("popup_x_lastShown", "0")],
          false⟩ :=
  C1_dismissed_never_shows "x" 7 0
    [("popup_x_dismissed", "true"), ("popup_x_lastShown", "0")] (by decide)

/-- C2: with the dismissed flag absent and `lastShown` present and
numeric (`parseInt` succeeds with value `t`), the decision computes
`(now - t) / msPerDay`; when that is `< showDays` it schedules the
show after the fixed 2000 ms delay and leaves storage (in particular
`lastShownAt`) unchanged, and when it is `≥ showDays` it does not
show. -/
theorem C2_elapsed_days_decision (f : String) (d : ℚ) (now t : Int)
    (s : Storage) (str : String)
    (hd : getItem (dismissedKey f) s = none)
    (hl : getItem (lastShownKey f) s = some str)
    (hne : str ≠ "") (hp : parseIntJS str = some t) :
    (((now - t : Int) : ℚ) / msPerDay < d →
        mountEffect f d now s = ⟨some 2000, s, false⟩) ∧
    (d ≤ ((now - t : Int) : ℚ) / msPerDay →
        mountEffect f d now s = ⟨none, s, false⟩) := by
  have h := mountEffect_parsed f d now s str t (by rw [hd]; rfl) hl hne hp
  constructor
  · intro hlt
    rw [h, if_pos hlt]
  · intro hge
    rw [h, if_neg (not_lt.mpr hge)]

/-- Witness for C2: six days elapsed with a seven-day window shows
the popup without touching storage. -/
theorem C2_witness :
    mountEffect "x" 7 864000000 [("popup_x_lastShown", "345600000")]
      = ⟨some 2000, [("popup_x_lastShown", "345600000")], false⟩ :=
  (C2_elapsed_days_decision "x" 7 864000000 345600000
      [("popup_x_lastShown", "345600000")] "345600000"
      (by decide) (by decide) (by decide) (by decide)).1
    (by norm_num [msPerDay])

/-- C3 counterexample: with `showDays = 7` and `now` at day 10, a
`lastShown` of day 4 (elapsed `showDays - 1 = 6` days) does schedule
the popup — the claim says it must not render — and a `lastShown` of
day 2 (elapsed `showDays + 1 = 8` days) schedules nothing — the claim
says it renders. -/
theorem C3_counterexample :
    (mountEffect "x" 7 864000000
        [("popup_x_lastShown", "345600000")]).schedule ≠ none ∧
    (mountEffect "x" 7 864000000
        [("popup_x_lastShown", "172800000")]).schedule = none := by
  have h1 := mountEffect_parsed "x" 7 864000000
    [("popup_x_lastShown", "345600000")] "345600000" 345600000
    (by decide) (by decide) (by decide) (by decide)
  have h2 := mountEffect_parsed "x" 7 864000000
    [("popup_x_lastShown", "172800000")] "172800000" 172800000
    (by decide) (by decide) (by decide) (by decide)
  rw [if_pos (by norm_num [msPerDay])] at h1
  rw [if_neg (by norm_num [msPerDay])] at h2
  rw [h1, h2]
  exact ⟨by simp, rfl⟩

/-- C3 (amended): with the dismissed flag absent, a `lastShownAt` of
`now - (showDays - 1) days` renders the popup (elapsed `< showDays`),
and a `lastShownAt` of `now - (showDays + 1) days` does not (elapsed
`≥ showDays`) — the opposite of the claimed directions. -/
theorem C3_amended_boundaries (f : String) (d : ℚ) (now t₁ t₂ : Int)
    (s₁ s₂ : Storage) (str₁ str₂ : String)
    (hd₁ : getItem (dismissedKey f) s₁ = none)
    (hl₁ : getItem (lastShownKey f) s₁ = some str₁)
    (hne₁ : str₁ ≠ "") (hp₁ : parseIntJS str₁ = some t₁)
    (he₁ : ((now - t₁ : Int) : ℚ) = (d - 1) * msPerDay)
    (hd₂ : getItem (dismissedKey f) s₂ = none)
    (hl₂ : getItem (lastShownKey f) s₂ = some str₂)
    (hne₂ : str₂ ≠ "") (hp₂ : parseIntJS str₂ = some t₂)
    (he₂ : ((now - t₂ : Int) : ℚ) = (d + 1) * msPerDay) :
    mountEffect f d now s₁ = ⟨some 2000, s₁, false⟩ ∧
    mountEffect f d now s₂ = ⟨none, s₂, false⟩ := by
  have hms : (msPerDay : ℚ) ≠ 0 := by norm_num [msPerDay]
  have h1 := mountEffect_parsed f d now s₁ str₁ t₁ (by rw [hd₁]; rfl)
    hl₁ hne₁ hp₁
  have h2 := mountEffect_parsed f d now s₂ str₂ t₂ (by rw [hd₂]; rfl)
    hl₂ hne₂ hp₂
  have e1 : ((now - t₁ : Int) : ℚ) / msPerDay = d - 1 := by
    rw [he₁]
    field_simp
  have e2 : ((now - t₂ : Int) : ℚ) / msPerDay = d + 1 := by
    rw [he₂]
    field_simp
  rw [e1] at h1
  rw [e2] at h2
  rw [if_pos (by linarith)] at h1
  rw [if_neg (by linarith)] at h2
  exact ⟨h1, h2⟩

/-- Witness for the amended C3 at `showDays = 7`, `now` at day 10,
`lastShown` at day 4 (shows) and day 2 (does not show). -/
theorem C3_amended_witness :
    mountEffect "x" 7 864000000 [("popup_x_lastShown", "345600000")]
        = ⟨some 2000, [("popup_x_lastShown", "345600000")], false⟩ ∧
    mountEffect "x" 7 864000000 [("popup_x_lastShown", "172800000")]
        = ⟨none, [("popup_x_lastShown", "172800000")], false⟩ :=
  C3_amended_boundaries "x" 7 864000000 345600000 172800000
    [("popup_x_lastShown", "345600000")] [("popup_x_lastShown", "172800000")]
    "345600000" "172800000"
    (by decide) (by decide) (by decide) (by decide)
    (by norm_num [msPerDay])
    (by decide) (by decide) (by decide) (by decide)
    (by norm_num [msPerDay])

/-- C4: contrary to the claim, no storage access in the effect is
wrapped in try/catch — when the storage device is unavailable the
very first `getItem` raises and the exception propagates out of the
mount effect instead of degrading to "do not show". -/
theorem C4_storage_failure_propagates (f : String) (d : ℚ) (now : Int)
    (items : Storage) :
    mountEffectThrow f d now ⟨false, items⟩ = .error "SecurityError" := rfl

/-- C5 counterexample: on a first-ever qualifying load at mount time
0, the show is still pending (scheduled with the 2000 ms delay) and
yet `lastShownAt` is already persisted — holding the mount-time
stamp `"0"`, not the render-time stamp `toString (0 + 2000)` the
claim requires. -/
theorem C5_counterexample :
    (mountEffect "x" 7 0 []).schedule = some 2000 ∧
    getItem (lastShownKey "x") (mountEffect "x" 7 0 []).storage
        = some "0" ∧
    getItem (lastShownKey "x") (mountEffect "x" 7 0 []).storage
        ≠ some (toString ((0 : Int) + 2000)) := by decide

/-- C5 (amended): on a first-ever qualifying load (no dismissed flag,
no `lastShown` entry) the popup is scheduled to render after the fixed
2000 ms delay, and `lastShownAt` is persisted immediately at decision
time with the decision-time timestamp (2000 ms before the popup
becomes visible, and even if it never does); afterwards storage holds
the `lastShown` stamp and still no dismissed key. -/
theorem C5_amended_first_load (f : String) (d : ℚ) (now : Int)
    (s : Storage)
    (hd : getItem (dismissedKey f) s = none)
    (hl : getItem (lastShownKey f) s = none) :
    mountEffect f d now s
        = ⟨some 2000, setItem (lastShownKey f) (toString now) s, false⟩ ∧
    getItem (lastShownKey f) (mountEffect f d now s).storage
        = some (toString now) ∧
    getItem (dismissedKey f) (mountEffect f d now s).storage = none := by
  have h := mountEffect_neverShown f d now s (by rw [hd]; rfl)
    (by rw [hl]; rfl)
  refine ⟨h, ?_, ?_⟩
  · rw [h]
    exact getItem_setItem_self _ _ _
  · rw [h]
    show getItem (dismissedKey f)
      (setItem (lastShownKey f) (toString now) s) = none
    rw [getItem_setItem_of_ne _ _ _ (Ne.symm (keys_ne f)) s]
    exact hd

/-- Witness for the amended C5 on the empty store at mount time 0. -/
theorem C5_amended_witness :
    mountEffect "x" 7 0 []
        = ⟨some 2000, setItem (lastShownKey "x") (toString (0 : Int)) [],
            false⟩ ∧
    getItem (lastShownKey "x") (mountEffect "x" 7 0 []).storage
        = some (toString (0 : Int)) ∧
    getItem (dismissedKey "x") (mountEffect "x" 7 0 []).storage = none :=
  C5_amended_first_load "x" 7 0 [] (by decide) (by decide)

/-- C6: the dismiss handler persists the `"true"` sentinel under the
dismissed key for `featureId` and hides the popup (animation off, a
400 ms deferred `setIsVisible(false)`), and it is idempotent on the
persisted state: running it twice yields exactly the storage of
running it once. -/
theorem C6_dismiss_sets_flag_idempotent (f : String) (s : Storage) :
    handleDismiss f s
        = ⟨setItem (dismissedKey f) "true" s, false, some 400, none⟩ ∧
    (handleDismiss f (handleDismiss f s).storage).storage
        = (handleDismiss f s).storage := by
  refine ⟨rfl, ?_⟩
  show setItem (dismissedKey f) "true" (setItem (dismissedKey f) "true" s)
    = setItem (dismissedKey f) "true" s
  exact setItem_idem _ _ _

/-- C7: the close handler and the navigate handler each hide the popup
for the session only (animation off, 400 ms deferred hide; navigate
additionally pushes `linkUrl`) and leave persisted storage entirely
unchanged — neither writes the dismissed flag nor touches
`lastShownAt`. -/
theorem C7_close_navigate_no_persisted_change (s : Storage)
    (url : String) :
    (handleClose s).storage = s ∧
    (handleNavigate url s).storage = s ∧
    (handleClose s).hideDelay = some 400 ∧
    (handleNavigate url s).hideDelay = some 400 ∧
    (handleNavigate url s).navTo = some url :=
  ⟨rfl, rfl, rfl, rfl, rfl⟩

/-- C8 counterexample: with the non-numeric stored timestamp `"abc"`,
the decision schedules nothing and writes nothing — it does not take
the never-shown path (schedule plus fresh `lastShownAt`) the claim
requires. -/
theorem C8_counterexample :
    (mountEffect "x" 7 0 [("popup_x_lastShown", "abc")]).schedule
        ≠ some 2000 ∧
    (mountEffect "x" 7 0 [("popup_x_lastShown", "abc")]).storage
        = [("popup_x_lastShown", "abc")] := by decide

/-- C8 (amended): a stored `lastShownAt` that is non-empty but not
parseable (`parseInt` yields NaN) is treated as "do not show", not as
absent: the NaN day-count comparison is false, so the decision
schedules nothing and leaves storage unchanged.  Only an absent or
empty-string value takes the never-shown path. -/
theorem C8_amended_nan_no_show (f : String) (d : ℚ) (now : Int)
    (s : Storage) (str : String)
    (hd : getItem (dismissedKey f) s = none)
    (hl : getItem (lastShownKey f) s = some str)
    (hne : str ≠ "") (hp : parseIntJS str = none) :
    mountEffect f d now s = ⟨none, s, false⟩ :=
  mountEffect_nan f d now s str (by rw [hd]; rfl) hl hne hp

/-- Witness for the amended C8 with the stored value `"abc"`. -/
theorem C8_amended_witness :
    mountEffect "x" 7 0 [("popup_x_lastShown", "abc")]
      = ⟨none, [("popup_x_lastShown", "abc")], false⟩ :=
  C8_amended_nan_no_show "x" 7 0 [("popup_x_lastShown", "abc")] "abc"
    (by decide) (by decide) (by decide) (by decide)

/-- C9: contrary to the claim, the mount effect returns no cleanup
function (`useEffect` returns `undefined` on every path and
`clearTimeout` is never called), so on a first-ever load the deferred
show callback is still pending after the component unmounts. -/
theorem C9_show_still_pending_after_unmount :
    (mountEffect "x" 7 0 []).cleanup = false ∧
    pendingAfterUnmount (mountEffect "x" 7 0 []) = some 2000 := by decide

/-- C10: the dismissed check is plain JavaScript truthiness — any
non-empty string stored under the dismissed key (for example
`"false"` or `"0"`, not only the documented `"true"` sentinel)
suppresses the popup exactly as a permanent dismissal does. -/
theorem C10_any_nonempty_dismissed_suppresses (f : String) (d : ℚ)
    (now : Int) (s : Storage) (v : String)
    (hd : getItem (dismissedKey f) s = some v) (hne : v ≠ "") :
    mountEffect f d now s = ⟨none, s, false⟩ :=
  mountEffect_dismissed f d now s (by rw [hd]; simp [jsTruthy, hne])

/-- Witness for C10 with the stored value `"false"`. -/
theorem C10_witness :
    mountEffect "x" 7 0 [("popup_x_dismissed", "false")]
      = ⟨none, [("popup_x_dismissed", "false")], false⟩ :=
  C10_any_nonempty_dismissed_suppresses "x" 7 0
    [("popup_x_dismissed", "false")] "false" (by decide) (by decide)

end NewFeaturePopup
